import Mathlib

/-!
Shallow embedding of `pkg/admission/admit/admit.go` from the
admission-webhook-server repository.

The Go source contains two variants of the admission handler:

* Variant 1 (the `admissionController` with a `Register`-built list of
  `AdmitFunc`s and a loop over them) — embedded as `doServeAdmitFunc1`.
* Variant 2 (the older standalone `doServeAdmitFunc` taking a single
  `AdmitFunc`) — embedded as `doServeAdmitFunc2`.

Go-specific points carried over faithfully:

* In variant 1 the loop body is
  `if patches, err := adm(req); err != nil { break } else { patchOps = append(patchOps, patches...) }`.
  The `err` declared in the if-init statement SHADOWS the outer `err`
  (the one from `io.ReadAll`), so the `if err != nil` test after the loop
  sees the outer `err`, which is provably nil at that point (a non-nil
  read error returns early at line 88).  The deny branch of variant 1 is
  therefore dead code; the embedding keeps the dead branch, driven by an
  explicit `outerErr := none`, to mirror lines 133-150 of the source.
* Variant 2 assigns the OUTER err (`patchOps, err = adm(...)`), so its
  deny branch is live.
* Go slices distinguish nil from non-nil-empty, and `json.Marshal` encodes
  the nil slice as the literal `null` but a non-nil empty slice as `[]`.
  `GoSlice` models this with `Option (List _)` (`none` = nil slice), and
  `goAppend` models `append(s, t...)`: appending zero elements returns `s`
  unchanged (nil stays nil), otherwise the result is non-nil.
* The `Patch` field of the Kubernetes `AdmissionResponse` is `[]byte` with
  `omitempty`: it is absent from the encoded envelope iff the byte slice is
  nil/empty.  The marshalled patch bytes (`"null"` or `"[...]"`) are never
  empty, so whenever the allow branch runs the field is present.  The
  embedding models the field as `Option String` (`none` = absent).
-/

/-- Constant `metaV1.NamespacePublic` from the Kubernetes API. -/
def NamespacePublic : String := "kube-public"

/-- Constant `metaV1.NamespaceSystem` from the Kubernetes API. -/
def NamespaceSystem : String := "kube-system"

/-- Constant `jsonContentType` from admit.go. -/
def jsonContentType : String := "application/json"

/-- `http.StatusMethodNotAllowed`. -/
def statusMethodNotAllowed : Nat := 405

/-- `http.StatusBadRequest`. -/
def statusBadRequest : Nat := 400

/-- A Go slice of `α`: `none` is the nil slice, `some l` a non-nil slice
holding the elements `l` (a non-nil slice may be empty). -/
abbrev GoSlice (α : Type) := Option (List α)

/-- The elements of a Go slice. -/
def GoSlice.elems {α : Type} : GoSlice α → List α
  | none => []
  | some l => l

/-- Go `append(s, t...)`: appending zero elements returns `s` unchanged
(in particular nil stays nil); appending at least one element yields a
non-nil slice holding the concatenation. -/
def goAppend {α : Type} (s t : GoSlice α) : GoSlice α :=
  match t with
  | none => s
  | some [] => s
  | some (x :: xs) => some (s.elems ++ x :: xs)

/-- `PatchOperation` from admit.go (RFC 6902 JSON-patch operation).  The
`value` field is `interface\x7b\x7d` in Go with `omitempty`; it is modelled as an
opaque raw-JSON string, `none` when absent. -/
structure PatchOperation where
  op : String
  path : String
  value : Option String := none
  deriving DecidableEq, Repr

/-- The fields of `admissionV1.AdmissionRequest` that admit.go reads:
the UID (echoed into the response) and the target namespace. -/
structure AdmissionRequest where
  uid : String
  ns : String
  deriving DecidableEq, Repr

/-- `AdmitFunc` from admit.go: a Go function returning the pair
`([]PatchOperation, error)`; the error is `none` on success. -/
abbrev AdmitFunc := AdmissionRequest → GoSlice PatchOperation × Option String

/-- `isKubeNamespace` from admit.go. -/
def isKubeNamespace (ns : String) : Bool :=
  ns == NamespacePublic || ns == NamespaceSystem

/-- JSON encoding of a string field value (the op and path strings used in
this development contain no characters needing escapes). -/
def encodeJsonString (s : String) : String :=
  "\"" ++ s ++ "\""

/-- `json.Marshal` of one `PatchOperation` (struct tags `op`, `path`,
`value,omitempty`). -/
def PatchOperation.encode (p : PatchOperation) : String :=
  "\x7b\"op\":" ++ encodeJsonString p.op ++ ",\"path\":" ++ encodeJsonString p.path ++
    (match p.value with
     | none => ""
     | some v => ",\"value\":" ++ v) ++ "\x7d"

/-- `json.Marshal` of the `[]PatchOperation` slice: the nil slice encodes
to the literal `null`, a non-nil slice to a JSON array. -/
def marshalPatch (s : GoSlice PatchOperation) : String :=
  match s with
  | none => "null"
  | some l => "[" ++ String.intercalate "," (l.map PatchOperation.encode) ++ "]"

/-- Outcome of deserializing the request body
(`UniversalDeserializer.Decode` plus the `Request == nil` check):
`fail` = decode error, `nilReq` = decoded but inner request nil,
`ok` = decoded with type metadata and a non-nil inner request. -/
inductive DecodeResult where
  | fail
  | nilReq
  | ok (typeMeta : String) (req : AdmissionRequest)
  deriving DecidableEq, Repr

/-- Result of `io.ReadAll(r.Body)`: either an IO error or bytes, the
bytes being represented by what they decode to. -/
inductive BodyRead where
  | ioError
  | bytes (d : DecodeResult)
  deriving DecidableEq, Repr

/-- The parts of `http.Request` that admit.go reads. -/
structure HttpRequest where
  method : String
  contentType : String
  body : BodyRead
  deriving DecidableEq, Repr

/-- The fields of `admissionV1.AdmissionResponse` that admit.go writes.
`patch` holds the marshalled patch bytes (`none` = field never set, hence
absent via `omitempty`); `result` holds the `metaV1.Status` message
(`none` = no `Result` set). -/
structure AdmissionResponse where
  uid : String
  allowed : Bool
  patch : Option String
  patchType : Option String
  result : Option String
  deriving DecidableEq, Repr

/-- The outgoing `admissionV1.AdmissionReview` envelope.  Variant 1 echoes
the request TypeMeta and the inner request; variant 2 leaves both unset. -/
structure AdmissionReviewOut where
  typeMeta : Option String
  request : Option AdmissionRequest
  response : AdmissionResponse
  deriving DecidableEq, Repr

/-- What `doServeAdmitFunc` produces: either an early `WriteHeader(status)`
plus an error return (no envelope bytes), or the marshalled envelope. -/
inductive Outcome where
  | httpError (status : Nat)
  | ok (envelope : AdmissionReviewOut)
  deriving DecidableEq, Repr

/-- One run of the handler: its outcome, whether `io.ReadAll` on the body
was reached, and how many decision-function calls were made (the
call-count side channel). -/
structure HandlerRun where
  outcome : Outcome
  bodyRead : Bool
  invoked : Nat
  deriving DecidableEq, Repr

/-- The response carried by a run, when the run produced an envelope. -/
def HandlerRun.response? (h : HandlerRun) : Option AdmissionResponse :=
  match h.outcome with
  | .httpError _ => none
  | .ok env => some env.response

/-- The loop of variant 1 (admit.go lines 123-129), with `acc` the
`patchOps` accumulator.  Returns the accumulated slice, the error held by
the last iteration's SHADOWED `err` (never seen by the caller's test, kept
for specification purposes), and the number of functions invoked.  On a
failure the loop breaks: the failing call's patches are not appended and
the remaining functions are not invoked. -/
def loopAdmit : List AdmitFunc → AdmissionRequest → GoSlice PatchOperation →
    GoSlice PatchOperation × Option String × Nat
  | [], _, acc => (acc, none, 0)
  | f :: rest, req, acc =>
    match f req with
    | (_, some msg) => (acc, some msg, 1)
    | (patches, none) =>
      let r := loopAdmit rest req (goAppend acc patches)
      (r.1, r.2.1, r.2.2 + 1)

/-- Variant 1, steps 3-4 (admit.go lines 111-158) for a successfully
decoded review.  The `err` tested on line 133 is the OUTER `err` from
`io.ReadAll`, provably nil here (a non-nil read error returned early); the
loop bound a fresh shadowed `err`, so its failure never reaches this test
and the deny branch is dead.  The dead branch is kept to mirror the
source. -/
def handleReview1 (admitFuncs : List AdmitFunc) (typeMeta : String)
    (req : AdmissionRequest) : AdmissionReviewOut × Nat :=
  let lr :=
    if isKubeNamespace req.ns then ((none : GoSlice PatchOperation), (none : Option String), 0)
    else loopAdmit admitFuncs req none
  let outerErr : Option String := none
  let resp : AdmissionResponse :=
    match outerErr with
    | some e =>
      { uid := req.uid, allowed := false, patch := none, patchType := none, result := some e }
    | none =>
      { uid := req.uid, allowed := true, patch := some (marshalPatch lr.1),
        patchType := some "JSONPatch", result := none }
  (⟨some typeMeta, some req, resp⟩, lr.2.2)

/-- Variant 2, steps 3-4 (admit.go lines 269-307) for a successfully
decoded review.  Here `patchOps, err = adm(...)` assigns the OUTER `err`,
so the deny branch is live; the allow branch sets `Patch` but never
`PatchType`, and the envelope carries no TypeMeta and no echoed request. -/
def handleReview2 (adm : AdmitFunc) (req : AdmissionRequest) : AdmissionReviewOut × Nat :=
  let pr :=
    if isKubeNamespace req.ns then ((none : GoSlice PatchOperation), (none : Option String), 0)
    else
      let a := adm req
      (a.1, a.2, 1)
  let resp : AdmissionResponse :=
    match pr.2.1 with
    | some e =>
      { uid := req.uid, allowed := false, patch := none, patchType := none, result := some e }
    | none =>
      { uid := req.uid, allowed := true, patch := some (marshalPatch pr.1),
        patchType := none, result := none }
  (⟨none, none, resp⟩, pr.2.2)

/-- Variant 1 of `doServeAdmitFunc` (admit.go lines 78-159): method check
before the body is read, then body read, content-type check, decode, and
the review pipeline. -/
def doServeAdmitFunc1 (admitFuncs : List AdmitFunc) (r : HttpRequest) : HandlerRun :=
  if r.method ≠ "POST" then ⟨.httpError statusMethodNotAllowed, false, 0⟩
  else
    match r.body with
    | .ioError => ⟨.httpError statusBadRequest, true, 0⟩
    | .bytes d =>
      if r.contentType ≠ jsonContentType then ⟨.httpError statusBadRequest, true, 0⟩
      else
        match d with
        | .fail => ⟨.httpError statusBadRequest, true, 0⟩
        | .nilReq => ⟨.httpError statusBadRequest, true, 0⟩
        | .ok typeMeta req =>
          let er := handleReview1 admitFuncs typeMeta req
          ⟨.ok er.1, true, er.2⟩

/-- Variant 2 of `doServeAdmitFunc` (admit.go lines 236-308). -/
def doServeAdmitFunc2 (adm : AdmitFunc) (r : HttpRequest) : HandlerRun :=
  if r.method ≠ "POST" then ⟨.httpError statusMethodNotAllowed, false, 0⟩
  else
    match r.body with
    | .ioError => ⟨.httpError statusBadRequest, true, 0⟩
    | .bytes d =>
      if r.contentType ≠ jsonContentType then ⟨.httpError statusBadRequest, true, 0⟩
      else
        match d with
        | .fail => ⟨.httpError statusBadRequest, true, 0⟩
        | .nilReq => ⟨.httpError statusBadRequest, true, 0⟩
        | .ok _typeMeta req =>
          let er := handleReview2 adm req
          ⟨.ok er.1, true, er.2⟩

/-! Concrete inputs used by the closed theorems and witnesses. -/

/-- A request in the unprotected namespace `default`. -/
def reqDefault : AdmissionRequest := ⟨"u1", "default"⟩

/-- A well-formed POST carrying a decoded review for `reqDefault`. -/
def postReqDefault : HttpRequest :=
  ⟨"POST", jsonContentType, .bytes (.ok "v1" reqDefault)⟩

/-- A decision function that always fails with message `boom`. -/
def failBoom : AdmitFunc := fun _ => (none, some "boom")

/-- A patch operation adding a label. -/
def opAdd : PatchOperation :=
  ⟨"add", "/metadata/labels/injected", some "\"true\""⟩

/-- A decision function that always returns the single operation `opAdd`. -/
def addLabel : AdmitFunc := fun _ => (some [opAdd], none)

/-- A decision function that returns a non-nil empty patch slice. -/
def emptyNonNil : AdmitFunc := fun _ => (some [], none)

/-- A decision function that returns both a patch and an error, as a Go
function may. -/
def addAndFail : AdmitFunc := fun _ => (some [opAdd], some "boom")

/-- A decision function that returns the nil slice and no error. -/
def noopNil : AdmitFunc := fun _ => (none, none)

/-- A request in the protected namespace kube-system. -/
def reqKubeSystem : AdmissionRequest := ⟨"u2", "kube-system"⟩

/-- A well-formed POST carrying a decoded review for `reqKubeSystem`. -/
def postReqKubeSystem : HttpRequest :=
  ⟨"POST", jsonContentType, .bytes (.ok "v1" reqKubeSystem)⟩

/-- A GET request that is otherwise well-formed. -/
def getReqDefault : HttpRequest :=
  ⟨"GET", jsonContentType, .bytes (.ok "v1" reqDefault)⟩

/-- A POST whose body does not deserialize. -/
def undecodableReq : HttpRequest := ⟨"POST", jsonContentType, .bytes .fail⟩

/-! Helper lemmas shared by several claims. -/

/-- Appending a slice with no elements leaves the accumulator unchanged
(Go append of zero elements returns the original slice). -/
lemma goAppend_elems_nil {α : Type} (s t : GoSlice α) (h : t.elems = []) :
    goAppend s t = s := by
  cases t with
  | none => rfl
  | some l =>
    cases l with
    | nil => rfl
    | cons x xs => simp [GoSlice.elems] at h

/-- If every registered function returns a patch slice with no elements,
the loop leaves the accumulator unchanged. -/
lemma loopAdmit_fst_of_empty_elems (fs : List AdmitFunc) (req : AdmissionRequest)
    (acc : GoSlice PatchOperation) (h : ∀ f ∈ fs, ((f req).1).elems = []) :
    (loopAdmit fs req acc).1 = acc := by
  induction fs generalizing acc with
  | nil => rfl
  | cons f rest ih =>
    have hf := h f (List.mem_cons_self f rest)
    have hrest : ∀ g ∈ rest, ((g req).1).elems = [] :=
      fun g hg => h g (List.mem_cons_of_mem f hg)
    rcases hfp : f req with ⟨ps, e⟩
    cases e with
    | some msg => simp [loopAdmit, hfp]
    | none =>
      have hps : ps.elems = [] := by rw [hfp] at hf; exact hf
      simp [loopAdmit, hfp, goAppend_elems_nil acc ps hps, ih _ hrest]

/-- Every envelope emitted by variant 1 carries an allow response with a
present patch, patchType JSONPatch and no result (the deny branch of
variant 1 is dead because the loop error is shadowed). -/
lemma response1_shape (fs : List AdmitFunc) (r : HttpRequest) (resp : AdmissionResponse)
    (h : (doServeAdmitFunc1 fs r).response? = some resp) :
    resp.allowed = true ∧ resp.result = none ∧ resp.patchType = some "JSONPatch" ∧
      resp.patch.isSome := by
  unfold doServeAdmitFunc1 at h
  split at h
  · simp [HandlerRun.response?] at h
  · split at h
    · simp [HandlerRun.response?] at h
    · split at h
      · simp [HandlerRun.response?] at h
      · split at h
        · simp [HandlerRun.response?] at h
        · simp [HandlerRun.response?] at h
        · simp [HandlerRun.response?, handleReview1] at h
          subst h
          simp

/-- Every envelope emitted by variant 2 carries either an allow response
with a present patch and no patchType, or a deny response with no patch,
no patchType and a result message. -/
lemma response2_shape (adm : AdmitFunc) (r : HttpRequest) (resp : AdmissionResponse)
    (h : (doServeAdmitFunc2 adm r).response? = some resp) :
    (resp.allowed = true ∧ resp.result = none ∧ resp.patchType = none ∧
      resp.patch.isSome) ∨
    (resp.allowed = false ∧ resp.patch = none ∧ resp.patchType = none ∧
      resp.result.isSome) := by
  unfold doServeAdmitFunc2 at h
  split at h
  · simp [HandlerRun.response?] at h
  · split at h
    · simp [HandlerRun.response?] at h
    · split at h
      · simp [HandlerRun.response?] at h
      · split at h
        · simp [HandlerRun.response?] at h
        · simp [HandlerRun.response?] at h
        · simp only [HandlerRun.response?, handleReview2, Option.some.injEq] at h
          subst h
          split
          · right; simp
          · left; simp

/-! Claim theorems. -/

/-- Claim C1 (code bug): in the multi-function controller variant, a
failing decision function does NOT produce a denial.  At a concrete
request in namespace default with one registered function failing with
message boom, variant 1 returns allowed=true with patch null and no
result message, because the loop error is bound to a shadowed variable
and the deny branch tests the outer, nil error.  Variant 2, which assigns
the outer error, denies with the message as the claim states. -/
theorem c1_first_failure_not_denied_code_bug :
    doServeAdmitFunc1 [failBoom] postReqDefault =
      ⟨.ok ⟨some "v1", some reqDefault,
        ⟨"u1", true, some "null", some "JSONPatch", none⟩⟩, true, 1⟩ ∧
    doServeAdmitFunc2 failBoom postReqDefault =
      ⟨.ok ⟨none, none, ⟨"u1", false, none, none, some "boom"⟩⟩, true, 1⟩ :=
  ⟨rfl, rfl⟩

/-- Claim C2 (code bug): in the multi-function controller variant, patch
operations collected before the failing function are NOT discarded: with
a first function adding one operation and a second function failing, the
response is allowed=true and carries the marshalled earlier patch.  In
variant 2 a failure does discard the patches returned alongside it. -/
theorem c2_partial_patches_not_discarded_code_bug :
    doServeAdmitFunc1 [addLabel, failBoom] postReqDefault =
      ⟨.ok ⟨some "v1", some reqDefault,
        ⟨"u1", true,
         some "[\x7b\"op\":\"add\",\"path\":\"/metadata/labels/injected\",\"value\":\"true\"\x7d]",
         some "JSONPatch", none⟩⟩, true, 2⟩ ∧
    doServeAdmitFunc2 addAndFail postReqDefault =
      ⟨.ok ⟨none, none, ⟨"u1", false, none, none, some "boom"⟩⟩, true, 1⟩ :=
  ⟨rfl, rfl⟩

/-- Claim C7: any request whose method is not POST is rejected with the
method-not-allowed status before the body is read, with no decision
function invoked, in both variants. -/
theorem c7_non_post_rejected (fs : List AdmitFunc) (adm : AdmitFunc)
    (r : HttpRequest) (hm : r.method ≠ "POST") :
    doServeAdmitFunc1 fs r = ⟨.httpError statusMethodNotAllowed, false, 0⟩ ∧
    doServeAdmitFunc2 adm r = ⟨.httpError statusMethodNotAllowed, false, 0⟩ := by
  constructor <;> simp [doServeAdmitFunc1, doServeAdmitFunc2, hm]

/-- Witness for C7 at a concrete GET request. -/
theorem c7_non_post_rejected_witness :
    doServeAdmitFunc1 [addLabel] getReqDefault =
      ⟨.httpError statusMethodNotAllowed, false, 0⟩ ∧
    doServeAdmitFunc2 addLabel getReqDefault =
      ⟨.httpError statusMethodNotAllowed, false, 0⟩ :=
  c7_non_post_rejected [addLabel] addLabel getReqDefault (by decide)

/-- Claim C8: a POST whose body fails to deserialize, or deserializes with
a nil inner request, is rejected with the bad-request status: no decision
function runs and no envelope is encoded (the outcome is an HTTP error,
not an envelope), in both variants. -/
theorem c8_undecodable_rejected (fs : List AdmitFunc) (adm : AdmitFunc)
    (r : HttpRequest) (hm : r.method = "POST")
    (hct : r.contentType = jsonContentType)
    (hb : r.body = .bytes .fail ∨ r.body = .bytes .nilReq) :
    doServeAdmitFunc1 fs r = ⟨.httpError statusBadRequest, true, 0⟩ ∧
    doServeAdmitFunc2 adm r = ⟨.httpError statusBadRequest, true, 0⟩ := by
  rcases hb with hb | hb <;>
    constructor <;>
      simp [doServeAdmitFunc1, doServeAdmitFunc2, hm, hct, hb]

/-- Witness for C8 at a concrete undecodable POST body. -/
theorem c8_undecodable_rejected_witness :
    doServeAdmitFunc1 [addLabel] undecodableReq =
      ⟨.httpError statusBadRequest, true, 0⟩ ∧
    doServeAdmitFunc2 addLabel undecodableReq =
      ⟨.httpError statusBadRequest, true, 0⟩ :=
  c8_undecodable_rejected [addLabel] addLabel undecodableReq rfl rfl (Or.inl rfl)

/-- Claim C3: a request whose namespace is kube-public or kube-system is
answered allowed=true with the empty (nil) patch, marshalled as null,
and no decision function is invoked, in both variants, for any registered
functions. -/
theorem c3_protected_namespace_bypass (fs : List AdmitFunc) (adm : AdmitFunc)
    (r : HttpRequest) (tm : String) (req : AdmissionRequest)
    (hm : r.method = "POST") (hct : r.contentType = jsonContentType)
    (hb : r.body = .bytes (.ok tm req))
    (hk : req.ns = NamespacePublic ∨ req.ns = NamespaceSystem) :
    doServeAdmitFunc1 fs r =
      ⟨.ok ⟨some tm, some req,
        ⟨req.uid, true, some "null", some "JSONPatch", none⟩⟩, true, 0⟩ ∧
    doServeAdmitFunc2 adm r =
      ⟨.ok ⟨none, none, ⟨req.uid, true, some "null", none, none⟩⟩, true, 0⟩ := by
  have hkube : isKubeNamespace req.ns = true := by
    rcases hk with h | h <;>
      simp [isKubeNamespace, h, NamespacePublic, NamespaceSystem]
  constructor <;>
    simp [doServeAdmitFunc1, doServeAdmitFunc2, hm, hct, hb,
      handleReview1, handleReview2, hkube, marshalPatch]

/-- Witness for C3: a request for kube-system with an always-failing
registered function is still allowed with the null patch. -/
theorem c3_protected_namespace_bypass_witness :
    doServeAdmitFunc1 [failBoom] postReqKubeSystem =
      ⟨.ok ⟨some "v1", some reqKubeSystem,
        ⟨"u2", true, some "null", some "JSONPatch", none⟩⟩, true, 0⟩ ∧
    doServeAdmitFunc2 failBoom postReqKubeSystem =
      ⟨.ok ⟨none, none, ⟨"u2", true, some "null", none, none⟩⟩, true, 0⟩ :=
  c3_protected_namespace_bypass [failBoom] failBoom postReqKubeSystem
    "v1" reqKubeSystem rfl rfl rfl (Or.inr rfl)

/-- Claim C4: the loop over the registered functions stops at the first
failure: with every function before `f` succeeding and `f` failing, the
loop result does not depend on the functions after `f` at all, and the
call count is exactly the position of `f` (functions after it are never
invoked). -/
theorem c4_iteration_stops_at_first_failure (pre post : List AdmitFunc)
    (f : AdmitFunc) (req : AdmissionRequest) (acc : GoSlice PatchOperation)
    (hpre : ∀ g ∈ pre, (g req).2 = none) (hf : (f req).2.isSome) :
    loopAdmit (pre ++ f :: post) req acc = loopAdmit (pre ++ [f]) req acc ∧
    (loopAdmit (pre ++ f :: post) req acc).2.2 = pre.length + 1 := by
  induction pre generalizing acc with
  | nil =>
    rcases hfp : f req with ⟨ps, e⟩
    rw [hfp] at hf
    cases e with
    | none => simp at hf
    | some msg => simp [loopAdmit, hfp]
  | cons g rest ih =>
    have hg := hpre g (List.mem_cons_self g rest)
    have hrest : ∀ g2 ∈ rest, (g2 req).2 = none :=
      fun g2 hg2 => hpre g2 (List.mem_cons_of_mem g hg2)
    rcases hgp : g req with ⟨ps, e⟩
    rw [hgp] at hg
    subst hg
    have ihr := ih (goAppend acc ps) hrest
    simp only [List.cons_append, loopAdmit, hgp, List.append_eq]
    constructor
    · rw [ihr.1]
    · rw [ihr.2]
      simp

/-- Witness for C4: with one succeeding function, then a failing one, then
one more, the loop behaves as if the trailing function were absent and the
call count is 2. -/
theorem c4_iteration_stops_at_first_failure_witness :
    loopAdmit [addLabel, failBoom, addLabel] reqDefault none =
      loopAdmit [addLabel, failBoom] reqDefault none ∧
    (loopAdmit [addLabel, failBoom, addLabel] reqDefault none).2.2 = 2 :=
  c4_iteration_stops_at_first_failure [addLabel] [addLabel] failBoom reqDefault none
    (by intro g hg; rw [List.mem_singleton] at hg; subst hg; rfl) rfl

/-- Claim C9: for a successfully decoded review, the UID of the response
inside the emitted envelope equals the UID of the inbound request, in both
variants and in both the allow and the deny outcome. -/
theorem c9_response_uid_echoes_request (fs : List AdmitFunc) (adm : AdmitFunc)
    (r : HttpRequest) (tm : String) (req : AdmissionRequest)
    (hm : r.method = "POST") (hct : r.contentType = jsonContentType)
    (hb : r.body = .bytes (.ok tm req)) :
    (doServeAdmitFunc1 fs r).response?.map AdmissionResponse.uid = some req.uid ∧
    (doServeAdmitFunc2 adm r).response?.map AdmissionResponse.uid = some req.uid := by
  constructor
  · simp only [doServeAdmitFunc1, hm, hct, hb]
    simp [HandlerRun.response?, handleReview1]
  · cases hk : isKubeNamespace req.ns with
    | false =>
      rcases ha : adm req with ⟨ps, e⟩
      cases e <;>
        simp [doServeAdmitFunc2, hm, hct, hb, handleReview2, hk, ha,
          HandlerRun.response?]
    | true =>
      simp [doServeAdmitFunc2, hm, hct, hb, handleReview2, hk,
        HandlerRun.response?]

/-- Witness for C9: the deny outcome of variant 2 and the allow outcome of
variant 1 both echo UID u1. -/
theorem c9_response_uid_echoes_request_witness :
    (doServeAdmitFunc1 [addLabel] postReqDefault).response?.map AdmissionResponse.uid =
      some "u1" ∧
    (doServeAdmitFunc2 failBoom postReqDefault).response?.map AdmissionResponse.uid =
      some "u1" :=
  ⟨(c9_response_uid_echoes_request [addLabel] failBoom postReqDefault
      "v1" reqDefault rfl rfl rfl).1,
   (c9_response_uid_echoes_request [addLabel] failBoom postReqDefault
      "v1" reqDefault rfl rfl rfl).2⟩

/-- Counterexample to claim C5 as stated: in variant 2, a response with a
patch present has no patchType at all (the field is never set in that
variant), so patchType does not equal JSONPatch. -/
theorem c5_patch_without_patchType_counterexample :
    (doServeAdmitFunc2 addLabel postReqDefault).response?.map AdmissionResponse.patch =
      some (some
        "[\x7b\"op\":\"add\",\"path\":\"/metadata/labels/injected\",\"value\":\"true\"\x7d]") ∧
    (doServeAdmitFunc2 addLabel postReqDefault).response?.map AdmissionResponse.patchType =
      some none ∧
    (doServeAdmitFunc2 addLabel postReqDefault).response?.map AdmissionResponse.patchType ≠
      some (some "JSONPatch") :=
  ⟨rfl, rfl, by decide⟩

/-- Claim C5 as amended: in the multi-function controller variant, every
emitted response with a present patch has patchType JSONPatch; the
single-function variant never sets patchType, even when a patch is
present. -/
theorem c5_patchType_amended (fs : List AdmitFunc) (adm : AdmitFunc)
    (r : HttpRequest) (resp1 resp2 : AdmissionResponse)
    (h1 : (doServeAdmitFunc1 fs r).response? = some resp1)
    (h2 : (doServeAdmitFunc2 adm r).response? = some resp2) :
    (resp1.patch.isSome → resp1.patchType = some "JSONPatch") ∧
    resp2.patchType = none := by
  refine ⟨fun _ => (response1_shape fs r resp1 h1).2.2.1, ?_⟩
  rcases response2_shape adm r resp2 h2 with h | h
  · exact h.2.2.1
  · exact h.2.2.1

/-- Witness for the amended C5 at concrete allow outcomes of both
variants. -/
theorem c5_patchType_amended_witness :
    ((⟨"u1", true,
       some "[\x7b\"op\":\"add\",\"path\":\"/metadata/labels/injected\",\"value\":\"true\"\x7d]",
       some "JSONPatch", none⟩ : AdmissionResponse).patch.isSome →
      (⟨"u1", true,
        some "[\x7b\"op\":\"add\",\"path\":\"/metadata/labels/injected\",\"value\":\"true\"\x7d]",
        some "JSONPatch", none⟩ : AdmissionResponse).patchType = some "JSONPatch") ∧
    (⟨"u1", true,
      some "[\x7b\"op\":\"add\",\"path\":\"/metadata/labels/injected\",\"value\":\"true\"\x7d]",
      none, none⟩ : AdmissionResponse).patchType = none :=
  c5_patchType_amended [addLabel] addLabel postReqDefault _ _ rfl rfl

/-- Claim C6: every response emitted by either variant is exactly one of
an allow with no result message (possibly with a patch) or a deny with a
result message and no patch; in particular no response carries both a
patch and a result message. -/
theorem c6_allow_or_deny_never_both (fs : List AdmitFunc) (adm : AdmitFunc)
    (r : HttpRequest) (resp : AdmissionResponse)
    (h : (doServeAdmitFunc1 fs r).response? = some resp ∨
         (doServeAdmitFunc2 adm r).response? = some resp) :
    ((resp.allowed = true ∧ resp.result = none) ∨
     (resp.allowed = false ∧ resp.result.isSome ∧ resp.patch = none)) ∧
    ¬(resp.patch.isSome ∧ resp.result.isSome) := by
  rcases h with h | h
  · obtain ⟨ha, hres, _, _⟩ := response1_shape fs r resp h
    exact ⟨Or.inl ⟨ha, hres⟩, fun hc => by rw [hres] at hc; simp at hc⟩
  · rcases response2_shape adm r resp h with ⟨ha, hres, _, _⟩ | ⟨ha, hp, _, hres⟩
    · exact ⟨Or.inl ⟨ha, hres⟩, fun hc => by rw [hres] at hc; simp at hc⟩
    · exact ⟨Or.inr ⟨ha, hres, hp⟩, fun hc => by rw [hp] at hc; simp at hc⟩

/-- Witness for C6 at the concrete deny outcome of variant 2. -/
theorem c6_allow_or_deny_never_both_witness :
    (((⟨"u1", false, none, none, some "boom"⟩ : AdmissionResponse).allowed = true ∧
      (⟨"u1", false, none, none, some "boom"⟩ : AdmissionResponse).result = none) ∨
     ((⟨"u1", false, none, none, some "boom"⟩ : AdmissionResponse).allowed = false ∧
      (⟨"u1", false, none, none, some "boom"⟩ : AdmissionResponse).result.isSome ∧
      (⟨"u1", false, none, none, some "boom"⟩ : AdmissionResponse).patch = none)) ∧
    ¬((⟨"u1", false, none, none, some "boom"⟩ : AdmissionResponse).patch.isSome ∧
      (⟨"u1", false, none, none, some "boom"⟩ : AdmissionResponse).result.isSome) :=
  c6_allow_or_deny_never_both [] failBoom postReqDefault
    ⟨"u1", false, none, none, some "boom"⟩ (Or.inr rfl)

/-- Counterexample to claim C10 as stated: in variant 2, a decision
function returning a non-nil empty slice reaches the allow outcome with
zero collected operations, yet the encoded patch is the empty array, not
the literal null. -/
theorem c10_empty_array_counterexample :
    (doServeAdmitFunc2 emptyNonNil postReqDefault).response?.map AdmissionResponse.patch =
      some (some "[]") ∧
    (doServeAdmitFunc2 emptyNonNil postReqDefault).response?.map AdmissionResponse.patch ≠
      some (some "null") :=
  ⟨rfl, by decide⟩

/-- Claim C10 as amended: at the allow outcome with zero collected
operations the patch field is present, never absent.  In the controller
variant it is always the literal null whenever every registered function
returns a patch slice with no elements (or the namespace is protected);
in the single-function variant it is the literal null when the namespace
is protected or the function returns the nil slice, but the empty array
when the function returns a non-nil empty slice. -/
theorem c10_zero_ops_patch_field_amended (fs : List AdmitFunc) (adm : AdmitFunc)
    (r : HttpRequest) (tm : String) (req : AdmissionRequest)
    (hm : r.method = "POST") (hct : r.contentType = jsonContentType)
    (hb : r.body = .bytes (.ok tm req)) :
    ((∀ f ∈ fs, ((f req).1).elems = []) →
      (doServeAdmitFunc1 fs r).response?.map AdmissionResponse.patch =
        some (some "null")) ∧
    (isKubeNamespace req.ns = true ∨ adm req = (none, none) →
      (doServeAdmitFunc2 adm r).response?.map AdmissionResponse.patch =
        some (some "null")) ∧
    (isKubeNamespace req.ns = false → adm req = (some [], none) →
      (doServeAdmitFunc2 adm r).response?.map AdmissionResponse.patch =
        some (some "[]")) := by
  refine ⟨fun hall => ?_, fun hadm => ?_, fun hk ha => ?_⟩
  · cases hk : isKubeNamespace req.ns with
    | false =>
      have hfst := loopAdmit_fst_of_empty_elems fs req none hall
      simp [doServeAdmitFunc1, hm, hct, hb, handleReview1, hk,
        HandlerRun.response?, hfst, marshalPatch]
    | true =>
      simp [doServeAdmitFunc1, hm, hct, hb, handleReview1, hk,
        HandlerRun.response?, marshalPatch]
  · rcases hadm with hk | ha
    · simp [doServeAdmitFunc2, hm, hct, hb, handleReview2, hk,
        HandlerRun.response?, marshalPatch]
    · cases hk : isKubeNamespace req.ns <;>
        simp [doServeAdmitFunc2, hm, hct, hb, handleReview2, hk, ha,
          HandlerRun.response?, marshalPatch]
  · simp [doServeAdmitFunc2, hm, hct, hb, handleReview2, hk, ha,
      HandlerRun.response?, marshalPatch]
    decide

/-- Witness for the amended C10: zero-element returns give the null patch
in variant 1 and in variant 2 for a nil return, while a non-nil empty
return gives the empty array in variant 2. -/
theorem c10_zero_ops_patch_field_amended_witness :
    (doServeAdmitFunc1 [emptyNonNil, noopNil] postReqDefault).response?.map
        AdmissionResponse.patch = some (some "null") ∧
    (doServeAdmitFunc2 noopNil postReqDefault).response?.map
        AdmissionResponse.patch = some (some "null") ∧
    (doServeAdmitFunc2 emptyNonNil postReqDefault).response?.map
        AdmissionResponse.patch = some (some "[]") :=
  ⟨(c10_zero_ops_patch_field_amended [emptyNonNil, noopNil] noopNil postReqDefault
      "v1" reqDefault rfl rfl rfl).1
      (by
        intro f hf
        rcases List.mem_cons.mp hf with h | h
        · subst h; rfl
        · rw [List.mem_singleton] at h; subst h; rfl),
   (c10_zero_ops_patch_field_amended [emptyNonNil, noopNil] noopNil postReqDefault
      "v1" reqDefault rfl rfl rfl).2.1 (Or.inr rfl),
   (c10_zero_ops_patch_field_amended [emptyNonNil, noopNil] emptyNonNil postReqDefault
      "v1" reqDefault rfl rfl rfl).2.2 rfl rfl⟩
